import Mathlib

/-!
Verification of the per-block audio pipeline of `src/main.py` (a real-time
voice-transformation script).  The program is embedded shallowly over exact
rational arithmetic: Python floats become `ℚ`, numpy 1-d arrays become
`List ℚ`, numpy 2-d arrays (frames × channels) become `List (List ℚ)`, and
code that can raise becomes `Except PipelineError`.

The script's own code (`shift_pitch`, `shift_formant`, `process_audio_block`
and the module constants) is translated line by line.  The third-party calls
it makes (`scipy.signal.resample`, `librosa.effects.pitch_shift`) are modelled
from those libraries' documented behaviour at the granularity the properties
below depend on: output lengths, degenerate-input failure, and exactness of a
same-length resample; the doc comment of each model states exactly what is
faithful and what is abstracted.
-/

namespace Vc

/-- `SAMPLE_RATE = 44100` from `src/main.py:9`. -/
def SAMPLE_RATE : ℕ := 44100

/-- `BLOCK_SIZE = 1024` from `src/main.py:10`. -/
def BLOCK_SIZE : ℕ := 1024

/-- `PITCH_SHIFT = 1.5` from `src/main.py:11`. -/
def PITCH_SHIFT : ℚ := 3 / 2

/-- `FORMANT_SHIFT = 1.2` from `src/main.py:12`. -/
def FORMANT_SHIFT : ℚ := 6 / 5

/-- The gain literal `1.2` applied at `src/main.py:38`. -/
def GAIN : ℚ := 6 / 5

/-- Failure modes observable in the pipeline.  `invalidParameter` and
`unsupportedChannelLayout` are the error taxonomy the specification
postulates; `numericDomainError` models numpy domain failures (NaN/inf
propagation, e.g. `log2` of a non-positive number), `libraryError` models
exceptions raised inside scipy/librosa on degenerate sizes, and
`shapeMismatch` models a numpy broadcast error when an array is assigned
into a buffer of a different shape. -/
inductive PipelineError where
  | invalidParameter
  | unsupportedChannelLayout
  | numericDomainError
  | libraryError
  | shapeMismatch
deriving DecidableEq, Repr

/-- Python's `int(...)` applied to a real number: truncation toward zero
(`src/main.py:21` computes `int(len(audio) * formant_factor)`). -/
def pyInt (q : ℚ) : ℤ := if 0 ≤ q then ⌊q⌋ else ⌈q⌉

/-- Abstract interpolation kernel shared by the resampling models below:
produce `n` samples, sample `m` taken at source index `⌊m·len/n⌋`.  Its two
properties that matter are that the output length is exactly `n` and that at
`n = y.length` it is the identity — both of which the genuine Fourier-method
resampling also has (resampling to the same length is `irfft ∘ rfft`, the
identity in exact arithmetic).  The interpolated values at other lengths are
an abstraction; no property proved below depends on them. -/
def indexResample (y : List ℚ) (n : ℕ) : List ℚ :=
  (List.range n).map fun m => y.getD (m * y.length / n) 0

/-- Models `scipy.signal.resample(x, num)` (Fourier method), called at
`src/main.py:21` and `src/main.py:23`.  Faithful points: the output has
exactly `num` samples; `num = len(x)` performs no spectral truncation or
padding, so in exact arithmetic it returns `x` unchanged; an empty input
(`np.fft.fft` of zero points) or a non-positive `num` (zero/negative output
shape) raises a `ValueError` inside the library, modelled as
`libraryError`. -/
def resample (x : List ℚ) (num : ℤ) : Except PipelineError (List ℚ) :=
  if x = [] ∨ num ≤ 0 then .error .libraryError
  else .ok (indexResample x num.toNat)

/-- Models `librosa.util.fix_length(y, size  n)`: truncate or zero-pad the
tail so the result has exactly `n` samples.  This is the final step of
`librosa.effects.pitch_shift` and is what guarantees its output length. -/
def fix_length (y : List ℚ) (n : ℕ) : List ℚ :=
  y.take n ++ List.replicate (n - y.length) 0

/-- Models `librosa.effects.time_stretch(y, rate  r)`: a phase-vocoder
stretch producing about `len(y)/r` samples.  At `r = 1` the phase vocoder
reproduces the spectrogram exactly and `istft ∘ stft` is the identity in
exact arithmetic, so the model is the identity there (which `indexResample`
gives, since `⌈len/1⌉ = len`); other rates are abstracted by
`indexResample`. -/
def time_stretch (y : List ℚ) (rate : ℚ) : List ℚ :=
  indexResample y (Int.toNat ⌈(y.length : ℚ) / rate⌉)

/-- Models `librosa.resample(y, orig_sr, target_sr)`: sample-rate conversion
to about `len(y)·target/orig` samples.  Faithful point: librosa returns `y`
unchanged when `orig_sr = target_sr`; other rate pairs are abstracted by
`indexResample`. -/
def librosa_resample (y : List ℚ) (orig_sr target_sr : ℚ) : List ℚ :=
  if orig_sr = target_sr then y
  else indexResample y (Int.toNat ⌈(y.length : ℚ) * target_sr / orig_sr⌉)

/-- `shift_pitch` from `src/main.py:14-16`:
`librosa.effects.pitch_shift(audio, sr=SAMPLE_RATE,
n_steps=np.log2(pitch_factor) * 12)`.
Inside librosa this time-stretches by `rate = 2^(-n_steps/12)` — which here
is exactly `1/pitch_factor` — and resamples from `sr/rate` back to `sr`,
finally fixing the length to the input's.  The source performs no parameter
validation: for `pitch_factor ≤ 0`, `np.log2` is undefined over the reals
(NaN or -inf) and the NaN/inf propagates into numpy index computations that
raise `ValueError`, modelled as `numericDomainError`; an empty input makes
librosa's `stft` padding raise, modelled as `libraryError`. -/
def shift_pitch (audio : List ℚ) (pitch_factor : ℚ) :
    Except PipelineError (List ℚ) :=
  if audio = [] then .error .libraryError
  else if pitch_factor ≤ 0 then .error .numericDomainError
  else
    let rate : ℚ := 1 / pitch_factor
    let stretched := time_stretch audio rate
    let resampled :=
      librosa_resample stretched ((SAMPLE_RATE : ℚ) / rate) (SAMPLE_RATE : ℚ)
    .ok (fix_length resampled audio.length)

/-- `shift_formant` from `src/main.py:18-23`:
`stretched = resample(audio, int(len(audio) * formant_factor))` followed by
`return resample(stretched, len(audio))`.  Note the intermediate target
length is Python's `int(...)` — truncation — of `len · factor`. -/
def shift_formant (audio : List ℚ) (formant_factor : ℚ) :
    Except PipelineError (List ℚ) :=
  (resample audio (pyInt ((audio.length : ℚ) * formant_factor))).bind
    fun stretched => resample stretched (audio.length : ℤ)

/-- The input half of the frame-buffer adapter, `src/main.py:29`:
`input_audio = indata[:, 0] if indata.shape[1] == 2 else indata.flatten()`.
`ch` is `indata.shape[1]`.  Column 0 of a frames×channels array is the head
of each row; `flatten` of a row-major array is row concatenation. -/
def to_mono (indata : List (List ℚ)) (ch : ℕ) : List ℚ :=
  if ch = 2 then indata.map List.headI else indata.flatten

/-- The gain stage of `src/main.py:38`, `processed = processed * 1.2`, as a
function of the scalar: numpy scalar multiplication is element-wise. -/
def apply_gain (b : List ℚ) (g : ℚ) : List ℚ :=
  b.map fun s => s * g

/-- The output half of the frame-buffer adapter, `src/main.py:41`:
`processed.reshape(-1, 1) if indata.shape[1] == 1 else
np.column_stack((processed, processed))`. -/
def from_mono (m : List ℚ) (ch : ℕ) : List (List ℚ) :=
  if ch = 1 then m.map fun s => [s] else m.map fun s => [s, s]

/-- Column `j` of a frames×channels array (missing entries read as 0). -/
def channel (ind : List (List ℚ)) (j : ℕ) : List ℚ :=
  ind.map fun r => r.getD j 0

/-- The per-block callback `process_audio_block` of `src/main.py:25-41`
(minus the status-flag print, which does not affect the data path).  `ch` is
`indata.shape[1]`, and the pre-allocated `outdata` buffer of the duplex
stream has the same frames×channels shape as `indata`; the final
`outdata[:] = ...` assignment raises a numpy broadcast `ValueError` when the
computed array's shape differs from the buffer's, modelled as
`shapeMismatch`. -/
def process_audio_block (indata : List (List ℚ)) (ch : ℕ) :
    Except PipelineError (List (List ℚ)) :=
  (shift_pitch (to_mono indata ch) PITCH_SHIFT).bind fun pitched =>
    (shift_formant pitched FORMANT_SHIFT).bind fun processed =>
      let outArr := from_mono (apply_gain processed GAIN) ch
      if outArr.length = indata.length ∧ ∀ r ∈ outArr, r.length = ch then
        .ok outArr
      else .error .shapeMismatch

/-- One run of the stream: the callback is invoked once per hardware block.
The script keeps no mutable state between callback invocations (the module
level holds only constants, and `shift_pitch` / `shift_formant` read nothing
but their arguments and those constants), so a stream of blocks is processed
as an independent map of the callback over the blocks. -/
def run_stream (blocks : List (List (List ℚ) × ℕ)) :
    List (Except PipelineError (List (List ℚ))) :=
  blocks.map fun b => process_audio_block b.1 b.2

/-! ### Basic lemmas about the resampling models -/

theorem length_indexResample (y : List ℚ) (n : ℕ) :
    (indexResample y n).length = n := by
  simp [indexResample]

theorem indexResample_self (y : List ℚ) : indexResample y y.length = y := by
  rcases eq_or_ne y [] with rfl | hy
  · rfl
  · have hpos : 0 < y.length := List.length_pos.mpr hy
    apply List.ext_getElem
    · simp [indexResample]
    · intro i h1 h2
      simp only [indexResample, List.getElem_map, List.getElem_range,
        Nat.mul_div_cancel _ hpos, List.getD_eq_getElem?_getD,
        List.getElem?_eq_getElem h2, Option.getD_some]

theorem fix_length_length (y : List ℚ) (n : ℕ) :
    (fix_length y n).length = n := by
  simp [fix_length]
  omega

theorem fix_length_self (y : List ℚ) : fix_length y y.length = y := by
  simp [fix_length]

theorem resample_pos (x : List ℚ) (num : ℤ) (hx : x ≠ []) (h : 0 < num) :
    resample x num = .ok (indexResample x num.toNat) := by
  simp [resample, hx, not_le.mpr h]

theorem resample_self (y : List ℚ) (hy : y ≠ []) :
    resample y (y.length : ℤ) = .ok y := by
  rw [resample_pos y _ hy (by exact_mod_cast List.length_pos.mpr hy),
    Int.toNat_natCast, indexResample_self]

theorem resample_error_cases (x : List ℚ) (num : ℤ) (e : PipelineError)
    (h : resample x num = .error e) : e = .libraryError := by
  unfold resample at h
  split_ifs at h
  injection h with h'
  exact h'.symm

/-! ### Success, length and error lemmas for the two shifters -/

theorem shift_pitch_ok_len (audio : List ℚ) (f : ℚ) (ha : audio ≠ [])
    (hf : 0 < f) :
    ∃ out, shift_pitch audio f = .ok out ∧ out.length = audio.length := by
  refine ⟨fix_length
      (librosa_resample (time_stretch audio (1 / f)) ((SAMPLE_RATE : ℚ) / (1 / f))
        (SAMPLE_RATE : ℚ)) audio.length,
    by simp [shift_pitch, ha, not_le.mpr hf], fix_length_length _ _⟩

theorem shift_pitch_error_cases (audio : List ℚ) (f : ℚ) (e : PipelineError)
    (h : shift_pitch audio f = .error e) :
    e = .libraryError ∨ e = .numericDomainError := by
  unfold shift_pitch at h
  split_ifs at h
  · injection h with h'
    exact Or.inl h'.symm
  · injection h with h'
    exact Or.inr h'.symm

theorem shift_formant_ok_len (audio : List ℚ) (r : ℚ)
    (h : 1 ≤ pyInt ((audio.length : ℚ) * r)) :
    ∃ out, shift_formant audio r = .ok out ∧ out.length = audio.length := by
  have ha : audio ≠ [] := by
    intro hnil
    subst hnil
    simp [pyInt] at h
  have hlenpos : 0 < audio.length := List.length_pos.mpr ha
  have h1 : resample audio (pyInt ((audio.length : ℚ) * r)) =
      .ok (indexResample audio (pyInt ((audio.length : ℚ) * r)).toNat) :=
    resample_pos _ _ ha (by omega)
  have hs : indexResample audio (pyInt ((audio.length : ℚ) * r)).toNat ≠ [] := by
    rw [← List.length_pos, length_indexResample]
    omega
  refine ⟨indexResample
      (indexResample audio (pyInt ((audio.length : ℚ) * r)).toNat)
      (audio.length : ℤ).toNat, ?_, ?_⟩
  · unfold shift_formant
    rw [h1]
    simp only [Except.bind]
    exact resample_pos _ _ hs (by exact_mod_cast hlenpos)
  · rw [length_indexResample, Int.toNat_natCast]

theorem shift_formant_nonpos (audio : List ℚ) (r : ℚ)
    (h : pyInt ((audio.length : ℚ) * r) ≤ 0) :
    shift_formant audio r = .error .libraryError := by
  unfold shift_formant resample
  rw [if_pos (Or.inr h)]
  rfl

theorem shift_formant_error_cases (audio : List ℚ) (r : ℚ) (e : PipelineError)
    (h : shift_formant audio r = .error e) : e = .libraryError := by
  unfold shift_formant at h
  rcases h1 : resample audio (pyInt ((audio.length : ℚ) * r)) with e' | s
  · rw [h1] at h
    simp only [Except.bind] at h
    injection h with h'
    exact h'.symm.trans (resample_error_cases _ _ _ h1)
  · rw [h1] at h
    simp only [Except.bind] at h
    exact resample_error_cases _ _ _ h

/-! ### Identity of both shifters at ratio 1 -/

theorem shift_formant_one (audio : List ℚ) (ha : audio ≠ []) :
    shift_formant audio 1 = .ok audio := by
  have hp : pyInt ((audio.length : ℚ) * 1) = (audio.length : ℤ) := by
    simp [pyInt]
  unfold shift_formant
  rw [hp, resample_self audio ha]
  simp only [Except.bind]
  exact resample_self audio ha

theorem shift_pitch_one (audio : List ℚ) (ha : audio ≠ []) :
    shift_pitch audio 1 = .ok audio := by
  have h1 : ¬ ((1 : ℚ) ≤ 0) := by norm_num
  simp [shift_pitch, ha, h1, time_stretch, librosa_resample,
    indexResample_self, fix_length_self]

theorem map_headI_zipWith (c d : List ℚ) (h : c.length = d.length) :
    (List.zipWith (fun a b => [a, b]) c d).map List.headI = c := by
  induction c generalizing d with
  | nil => simp
  | cons a t ih =>
    cases d with
    | nil => exact absurd h (by simp)
    | cons b t2 => simp [List.headI, ih t2 (by simpa using h)]

/-! ### The claims -/

/-- C1: for valid ratios, `shift_formant` and `shift_pitch` both succeed and
preserve the block length exactly.  Validity is the nonempty block and
positive pitch ratio for the pitch shifter, and a positive intermediate
resampling length for the formant shifter (which covers every formant ratio
the specification itself deems valid, i.e. those with intermediate length at
least 2). -/
theorem c1_shifters_preserve_length (audio : List ℚ) (pr fr : ℚ)
    (ha : audio ≠ []) (hpr : 0 < pr)
    (hfr : 1 ≤ pyInt ((audio.length : ℚ) * fr)) :
    (shift_pitch audio pr).map List.length = .ok audio.length ∧
    (shift_formant audio fr).map List.length = .ok audio.length := by
  obtain ⟨p, hp, hlp⟩ := shift_pitch_ok_len audio pr ha hpr
  obtain ⟨q, hq, hlq⟩ := shift_formant_ok_len audio fr hfr
  exact ⟨by rw [hp]; simp [Except.map, hlp], by rw [hq]; simp [Except.map, hlq]⟩

/-- Witness for C1 at a concrete block and the default pitch ratio 1.5. -/
theorem c1_shifters_preserve_length_witness :
    (shift_pitch [1, 2, 3, 4] (3 / 2)).map List.length = .ok 4 ∧
    (shift_formant [1, 2, 3, 4] 1).map List.length = .ok 4 := by
  have h := c1_shifters_preserve_length [1, 2, 3, 4] (3 / 2) 1
    (by simp) (by norm_num) (by norm_num [pyInt])
  simpa using h

/-- C6: on a 2-channel block the adapter's stereo-to-mono conversion returns
exactly the first channel, in order; the second channel never influences the
result (the statement holds for every second channel `d`), so there is no
averaged downmix. -/
theorem c6_to_mono_takes_first_channel (c d : List ℚ)
    (h : c.length = d.length) :
    to_mono (List.zipWith (fun a b => [a, b]) c d) 2 = c := by
  unfold to_mono
  rw [if_pos rfl]
  exact map_headI_zipWith c d h

/-- Witness for C6 on a concrete stereo block. -/
theorem c6_to_mono_takes_first_channel_witness :
    to_mono (List.zipWith (fun a b => [a, b]) [5, 6] [7, 8]) 2 = [5, 6] :=
  c6_to_mono_takes_first_channel [5, 6] [7, 8] rfl

/-- C7: `fromMono` with 2 target channels duplicates the mono signal into
both channels bit-identically: channel 0 and channel 1 both equal the input,
and every frame has exactly 2 samples. -/
theorem c7_from_mono_duplicates (m : List ℚ) :
    channel (from_mono m 2) 0 = m ∧ channel (from_mono m 2) 1 = m ∧
    (from_mono m 2).map List.length = List.replicate m.length 2 := by
  unfold from_mono channel
  rw [if_neg (by norm_num)]
  refine ⟨?_, ?_, ?_⟩ <;> induction m with
  | nil => rfl
  | cons a t ih => simpa [List.replicate_succ] using ih

/-- C8: both shifters are the identity at ratio 1 — exactly so in the
exact-arithmetic model, hence within any numeric tolerance.  For
`shift_formant`, `int(len·1.0) = len` and a same-length Fourier resample is
the identity; for `shift_pitch`, the internal stretch rate is 1 and librosa
returns the signal unchanged through `time_stretch`, `resample` and
`fix_length`. -/
theorem c8_identity_at_ratio_one (audio : List ℚ) (ha : audio ≠ []) :
    shift_pitch audio 1 = .ok audio ∧ shift_formant audio 1 = .ok audio :=
  ⟨shift_pitch_one audio ha, shift_formant_one audio ha⟩

/-- Witness for C8 on a concrete block. -/
theorem c8_identity_at_ratio_one_witness :
    shift_pitch [1, 2, 3] 1 = .ok [1, 2, 3] ∧
    shift_formant [1, 2, 3] 1 = .ok [1, 2, 3] :=
  c8_identity_at_ratio_one [1, 2, 3] (List.cons_ne_nil 1 [2, 3])

/-- C9: the gain stage is an element-wise scalar multiply with no clamping
(every output sample is exactly the corresponding input sample times the
gain), and gains compose: applying `g * h` equals applying `g` then `h` —
exact equality in the rational model, hence within floating tolerance. -/
theorem c9_gain_linearity :
    (∀ (b : List ℚ) (g h : ℚ),
      apply_gain b (g * h) = apply_gain (apply_gain b g) h) ∧
    (∀ (b : List ℚ) (g : ℚ) (i : ℕ),
      (apply_gain b g)[i]? = b[i]?.map fun s => s * g) := by
  constructor
  · intro b g h
    simp [apply_gain, List.map_map, Function.comp, mul_assoc]
  · intro b g i
    simp [apply_gain]

/-- C10: the per-block pipeline is deterministic and stateless across
blocks: the output stream at position `i` depends only on the input block at
position `i` (streams that agree there produce equal outputs there), and
appending a block to any prefix of earlier blocks yields the same final
output as processing that block alone. -/
theorem c10_stateless_deterministic :
    (∀ (s t : List (List (List ℚ) × ℕ)) (i : ℕ), s[i]? = t[i]? →
      (run_stream s)[i]? = (run_stream t)[i]?) ∧
    (∀ (pre : List (List (List ℚ) × ℕ)) (b : List (List ℚ)) (ch : ℕ),
      (run_stream (pre ++ [(b, ch)])).getLast? =
        some (process_audio_block b ch)) := by
  constructor
  · intro s t i h
    simp [run_stream, List.getElem?_map, h]
  · intro pre b ch
    simp [run_stream, List.map_append, List.getLast?_concat]

/-- Witness for C10: streams agreeing at position 0 but differing later give
the same first output. -/
theorem c10_stateless_deterministic_witness :
    (run_stream [([[1]], 1)])[0]? =
      (run_stream [([[1]], 1), ([[2]], 1)])[0]? :=
  c10_stateless_deterministic.1 [([[1]], 1)] [([[1]], 1), ([[2]], 1)] 0 rfl

/-- C2 counterexample: a 3-channel block is not rejected by the adapter.
Line 29 of the source flattens it into a 6-sample mono buffer (interleaved
concatenation) and the pipeline proceeds; the only failure is a shape
mismatch when the 6-frame stereo result is written into the 2-frame
3-channel output buffer — a numpy broadcast error, not
`UnsupportedChannelLayout`. -/
theorem c2_counterexample :
    to_mono [[1, 2, 3], [4, 5, 6]] 3 = [1, 2, 3, 4, 5, 6] ∧
    process_audio_block [[1, 2, 3], [4, 5, 6]] 3 = .error .shapeMismatch ∧
    PipelineError.shapeMismatch ≠ PipelineError.unsupportedChannelLayout := by
  have hmono : to_mono [[1, 2, 3], [4, 5, 6]] 3 = [1, 2, 3, 4, 5, 6] := by
    simp [to_mono]
  refine ⟨hmono, ?_, fun hc => PipelineError.noConfusion hc⟩
  unfold process_audio_block
  rw [hmono]
  obtain ⟨p, hp, hlp⟩ := shift_pitch_ok_len [1, 2, 3, 4, 5, 6] PITCH_SHIFT
    (by simp) (by norm_num [PITCH_SHIFT])
  rw [hp]
  simp only [Except.bind]
  have hfr : 1 ≤ pyInt ((p.length : ℚ) * FORMANT_SHIFT) := by
    rw [hlp]
    norm_num [pyInt, FORMANT_SHIFT]
  obtain ⟨q, hq, hlq⟩ := shift_formant_ok_len p FORMANT_SHIFT hfr
  rw [hq]
  simp only [Except.bind]
  rw [if_neg]
  rintro ⟨hlen, -⟩
  rw [hlp] at hlq
  unfold from_mono at hlen
  rw [if_neg (by norm_num)] at hlen
  simp [apply_gain, hlq] at hlen

/-- C2 amended: there is no `UnsupportedChannelLayout` failure in the code:
a channel count other than 2 (such as 3) is flattened by the adapter rather
than rejected, and on no input at all does the per-block pipeline produce the
`UnsupportedChannelLayout` error the specification postulates. -/
theorem c2_no_unsupported_channel_layout :
    (∀ (indata : List (List ℚ)) (ch : ℕ), ch ≠ 2 →
      to_mono indata ch = indata.flatten) ∧
    (∀ (indata : List (List ℚ)) (ch : ℕ),
      process_audio_block indata ch ≠ .error .unsupportedChannelLayout) := by
  constructor
  · intro indata ch h
    simp [to_mono, h]
  · intro indata ch hc
    unfold process_audio_block at hc
    rcases hp : shift_pitch (to_mono indata ch) PITCH_SHIFT with e | p
    · rw [hp] at hc
      simp only [Except.bind] at hc
      injection hc with hc'
      rcases shift_pitch_error_cases _ _ _ hp with h | h <;>
        · subst h
          exact PipelineError.noConfusion hc'
    · rw [hp] at hc
      simp only [Except.bind] at hc
      rcases hf : shift_formant p FORMANT_SHIFT with e | q
      · rw [hf] at hc
        simp only [Except.bind] at hc
        injection hc with hc'
        have h := shift_formant_error_cases _ _ _ hf
        subst h
        exact PipelineError.noConfusion hc'
      · rw [hf] at hc
        simp only [Except.bind] at hc
        split_ifs at hc
        injection hc with hc'
        exact PipelineError.noConfusion hc'

/-- Witness for C2 amended: a 3-channel block is flattened, and a valid mono
block never yields `UnsupportedChannelLayout`. -/
theorem c2_no_unsupported_channel_layout_witness :
    to_mono [[1, 2, 3]] 3 = [1, 2, 3] ∧
    process_audio_block [[9]] 1 ≠ .error .unsupportedChannelLayout := by
  constructor
  · have h := c2_no_unsupported_channel_layout.1 [[1, 2, 3]] 3 (by norm_num)
    simpa using h
  · exact c2_no_unsupported_channel_layout.2 [[9]] 1

/-- C3 counterexample: for a 5-sample block at ratio 3/4, the code's
intermediate resampling length is `int(5 · 0.75) = 3` (truncation), while
the claimed `round(5 · 0.75)` is 4. -/
theorem c3_counterexample :
    shift_formant [0, 1, 2, 3, 4] (3 / 4) =
      (resample [0, 1, 2, 3, 4] 3).bind (fun s => resample s 5) ∧
    pyInt ((5 : ℚ) * (3 / 4)) = 3 ∧ round ((5 : ℚ) * (3 / 4)) = 4 ∧
    (3 : ℤ) ≠ 4 := by
  refine ⟨?_, by norm_num [pyInt], by norm_num [round_eq], by norm_num⟩
  unfold shift_formant
  have h1 : pyInt ((List.length [(0 : ℚ), 1, 2, 3, 4] : ℚ) * (3 / 4)) = 3 := by
    norm_num [pyInt]
  rw [h1]
  norm_num

/-- C3 amended: `shift_formant` resamples first to the truncated length
`int(len · ratio)` — Python's `int`, i.e. the floor for the nonnegative
products valid ratios produce — and then back to the original length; the
intermediate length is not `round(len · ratio)`. -/
theorem c3_formant_uses_truncated_intermediate :
    (∀ (audio : List ℚ) (r : ℚ),
      shift_formant audio r =
        (resample audio (pyInt ((audio.length : ℚ) * r))).bind
          fun stretched => resample stretched (audio.length : ℤ)) ∧
    (∀ q : ℚ, 0 ≤ q → pyInt q = ⌊q⌋) :=
  ⟨fun _ _ => rfl, fun _ hq => if_pos hq⟩

/-- Witness for C3 amended at the concrete product 5 · 3/4. -/
theorem c3_formant_uses_truncated_intermediate_witness :
    pyInt ((5 : ℚ) * (3 / 4)) = ⌊(5 : ℚ) * (3 / 4)⌋ :=
  c3_formant_uses_truncated_intermediate.2 _ (by norm_num)

/-- C4 counterexample: for a 4-sample block at ratio 3/10 the intermediate
length `round(4 · 0.3) = 1` is below 2, yet `shift_formant` succeeds — it
returns a block rather than failing, and in particular never fails with
`InvalidParameter`. -/
theorem c4_counterexample :
    round ((4 : ℚ) * (3 / 10)) = 1 ∧ pyInt ((4 : ℚ) * (3 / 10)) = 1 ∧
    (shift_formant [1, 2, 3, 4] (3 / 10)).toOption ≠ none ∧
    shift_formant [1, 2, 3, 4] (3 / 10) ≠ .error .invalidParameter := by
  have h1 : pyInt ((List.length [(1 : ℚ), 2, 3, 4] : ℚ) * (3 / 10)) = 1 := by
    norm_num [pyInt]
  obtain ⟨out, ho, -⟩ := shift_formant_ok_len [1, 2, 3, 4] (3 / 10) h1.ge
  refine ⟨by norm_num [round_eq], by norm_num [pyInt], ?_, ?_⟩
  · rw [ho]
    simp [Except.toOption]
  · rw [ho]
    exact fun hc => Except.noConfusion hc

/-- C4 amended: `shift_formant` performs no parameter validation and never
fails with `InvalidParameter`: whenever the truncated intermediate length
`int(len · ratio)` is at least 1 — including the value 1, which the claim
says should be rejected — it returns a block of the input's length; only
when that length is ≤ 0 does it fail, and then with the modelled scipy
library error. -/
theorem c4_formant_no_invalid_parameter (audio : List ℚ) (r : ℚ) :
    (1 ≤ pyInt ((audio.length : ℚ) * r) →
      (shift_formant audio r).map List.length = .ok audio.length) ∧
    (pyInt ((audio.length : ℚ) * r) ≤ 0 →
      shift_formant audio r = .error .libraryError) ∧
    shift_formant audio r ≠ .error .invalidParameter := by
  refine ⟨?_, shift_formant_nonpos audio r, ?_⟩
  · intro h
    obtain ⟨out, ho, hl⟩ := shift_formant_ok_len audio r h
    rw [ho]
    simp [Except.map, hl]
  · intro hc
    exact PipelineError.noConfusion (shift_formant_error_cases audio r _ hc)

/-- Witness for C4 amended: success with length preserved at intermediate
length 2, and the library failure at intermediate length 0. -/
theorem c4_formant_no_invalid_parameter_witness :
    (shift_formant [1, 2] 1).map List.length = .ok 2 ∧
    shift_formant [1] (1 / 10) = .error .libraryError := by
  constructor
  · have h := (c4_formant_no_invalid_parameter [1, 2] 1).1 (by norm_num [pyInt])
    simpa using h
  · exact (c4_formant_no_invalid_parameter [1] (1 / 10)).2.1 (by norm_num [pyInt])

/-- C5 counterexample: at ratio 0 `shift_pitch` does fail, but with the
numeric domain error of `log2(0)` propagating through the libraries, not
with `InvalidParameter` — no such validation exists in the code. -/
theorem c5_counterexample :
    shift_pitch [1, 0, -1 / 2] 0 ≠ .error .invalidParameter ∧
    shift_pitch [1, 0, -1 / 2] 0 = .error .numericDomainError := by
  have h : shift_pitch [1, 0, -1 / 2] 0 = .error .numericDomainError := by
    simp [shift_pitch]
  refine ⟨?_, h⟩
  rw [h]
  intro hc
  injection hc with hc'
  exact PipelineError.noConfusion hc'

/-- C5 amended: `shift_pitch` performs no ratio validation; for every
non-positive ratio on a nonempty block, `np.log2(ratio)` is undefined over
the reals and the resulting NaN/inf makes the librosa call fail with a
numeric domain error — never with `InvalidParameter`. -/
theorem c5_nonpositive_ratio_numeric_error (audio : List ℚ) (r : ℚ)
    (ha : audio ≠ []) (hr : r ≤ 0) :
    shift_pitch audio r = .error .numericDomainError ∧
    shift_pitch audio r ≠ .error .invalidParameter := by
  have h : shift_pitch audio r = .error .numericDomainError := by
    simp [shift_pitch, ha, hr]
  refine ⟨h, ?_⟩
  rw [h]
  intro hc
  injection hc with hc'
  exact PipelineError.noConfusion hc'

/-- Witness for C5 amended at the concrete block `[1]` and ratio 0. -/
theorem c5_nonpositive_ratio_numeric_error_witness :
    shift_pitch [1] 0 = .error .numericDomainError ∧
    shift_pitch [1] 0 ≠ .error .invalidParameter :=
  c5_nonpositive_ratio_numeric_error [1] 0 (List.cons_ne_nil 1 []) le_rfl

end Vc
